import Mathlib

/-!
Shallow embedding of the medication-inventory backend (`app_firebase.py`).

The Firestore collections `medicamentos` and `movimientos` are modelled as
lists of records; each route handler becomes a pure function from the store
and the request data to the new store together with the HTTP status code and
message it would return.  Python string comparison (used on ISO dates) is
embedded as code-point lexicographic order, and Python `str.strip` as
removal of leading and trailing whitespace characters.
-/

/-- A document of the `medicamentos` collection: Firestore id plus the
fields written by `crear_medicamento` (the creation timestamp is not
modelled; no claim mentions it). -/
structure Medicamento where
  id : String
  nombre : String
  stock_minimo : Int
  orden : Int
deriving DecidableEq, Repr

/-- A document of the `movimientos` collection.  Fields read through
`dict.get` with a possible missing key are `Option`s; `fecha` is modelled
with the empty string for a missing value because every read site uses
`mov.get('fecha', '')` or compares against a nonempty date string.  The
insertion timestamp `fecha_registro` is an external clock and is not
modelled; no claim mentions it. -/
structure Movimiento where
  id : String
  medicamento_id : String
  tipo : Option String
  fecha : String
  cantidad : Option Int
  turno : Option String
  fecha_vencimiento : Option String
  observaciones : Option String
deriving DecidableEq, Repr

/-- Code-point lexicographic order on character lists, as Python compares
strings. -/
def listLt : List Char → List Char → Bool
  | [], [] => false
  | [], _ :: _ => true
  | _ :: _, [] => false
  | a :: as, b :: bs =>
    if a.toNat < b.toNat then true
    else if b.toNat < a.toNat then false
    else listLt as bs

/-- Python `a < b` on strings. -/
def pyStrLt (a b : String) : Bool := listLt a.data b.data

/-- Python `a <= b` on strings (total order, so the negation of `b < a`). -/
def pyStrLe (a b : String) : Bool := !(pyStrLt b a)

/-- Python `str.strip()`: drop leading and trailing whitespace. -/
def pyStrip (s : String) : String :=
  ⟨((s.data.dropWhile Char.isWhitespace).reverse.dropWhile Char.isWhitespace).reverse⟩

/-- One iteration of the movement loop in `calcular_stock_medicamento`:
the accumulator carries the running `(ingresos, salidas)` pair. -/
def pasoStock (medicamento_id : String) (acc : Int × Int) (mov : Movimiento) :
    Int × Int :=
  if mov.medicamento_id = medicamento_id then
    let tipo := mov.tipo.getD ""
    let cantidad := mov.cantidad.getD 0
    if tipo = "INGRESO" then (acc.1 + cantidad, acc.2)
    else if tipo = "SALIDA" then (acc.1, acc.2 + cantidad)
    else acc
  else acc

/-- `calcular_stock_medicamento`: with no database connection the function
returns the neutral value 0; otherwise it folds over all movements of the
medication and returns ingresos minus salidas. -/
def calcular_stock_medicamento (db : Option (List Movimiento))
    (medicamento_id : String) : Int :=
  match db with
  | none => 0
  | some movimientos =>
    let p := movimientos.foldl (pasoStock medicamento_id) (0, 0)
    p.1 - p.2

/-- Total quantity of the INGRESO movements of a medication. -/
def ingresosDe (movimientos : List Movimiento) (medicamento_id : String) : Int :=
  ((movimientos.filter (fun mov =>
      mov.medicamento_id = medicamento_id ∧ mov.tipo.getD "" = "INGRESO")).map
    (fun mov => mov.cantidad.getD 0)).sum

/-- Total quantity of the SALIDA movements of a medication. -/
def salidasDe (movimientos : List Movimiento) (medicamento_id : String) : Int :=
  ((movimientos.filter (fun mov =>
      mov.medicamento_id = medicamento_id ∧ mov.tipo.getD "" = "SALIDA")).map
    (fun mov => mov.cantidad.getD 0)).sum

/-- Request body of `POST /api/medicamentos`. -/
structure MedicamentoRequest where
  nombre : Option String
  stock_minimo : Option Int
deriving Repr

/-- Outcome of a route that may rewrite the `medicamentos` collection:
resulting collection, HTTP status, and response message. -/
structure ResultadoMedicamentos where
  medicamentos : List Medicamento
  status : Nat
  msg : String
deriving DecidableEq, Repr

/-- Outcome of a route that may rewrite the `movimientos` collection. -/
structure ResultadoMovimientos where
  movimientos : List Movimiento
  status : Nat
  msg : String
deriving DecidableEq, Repr

/-- The `orden` value of the query `order_by('orden', DESCENDING).limit(1)`:
the maximal `orden` of the collection, 0 when it is empty. -/
def maxOrden : List Medicamento → Int
  | [] => 0
  | [med] => med.orden
  | med :: resto => max (maxOrden resto) med.orden

/-- `crear_medicamento`: trim the name, validate it and the minimum stock,
reject duplicates of the trimmed name, otherwise append the new document
with the next `orden`.  `newId` stands for the id Firestore generates. -/
def crear_medicamento (medicamentos : List Medicamento) (newId : String)
    (req : MedicamentoRequest) : ResultadoMedicamentos :=
  let nombre := pyStrip (req.nombre.getD "")
  let stock_minimo := req.stock_minimo.getD 10
  if nombre = "" then
    ⟨medicamentos, 400, "El nombre del medicamento es obligatorio"⟩
  else if stock_minimo < 1 then
    ⟨medicamentos, 400, "El stock mínimo debe ser mayor a 0"⟩
  else if 0 < (medicamentos.filter (fun med => med.nombre = nombre)).length then
    ⟨medicamentos, 409, "El medicamento ya existe"⟩
  else
    ⟨medicamentos ++ [⟨newId, nombre, stock_minimo, maxOrden medicamentos + 1⟩],
      201, "Medicamento agregado exitosamente"⟩

/-- `eliminar_medicamento_ruta`: count the movements that reference the
medication; a positive count blocks the deletion, otherwise the document
with that id is removed. -/
def eliminar_medicamento_ruta (medicamentos : List Medicamento)
    (movimientos : List Movimiento) (id : String) : ResultadoMedicamentos :=
  let count := (movimientos.filter (fun mov => mov.medicamento_id = id)).length
  if 0 < count then
    ⟨medicamentos, 400,
      "No se puede eliminar. Hay " ++ toString count ++ " movimiento(s) asociado(s)."⟩
  else
    ⟨medicamentos.filter (fun med => ¬ med.id = id), 200,
      "Medicamento eliminado exitosamente"⟩

/-- Request body of `POST /api/movimientos`. -/
structure MovimientoRequest where
  tipo : Option String
  fecha : Option String
  medicamento_id : Option String
  cantidad : Option Int
  turno : Option String
  fecha_vencimiento : Option String
  observaciones : Option String
deriving Repr

/-- `crear_movimiento`: the falsy-field check (`not all([...])`), the type
and quantity validations, the stock-sufficiency check for SALIDA against
the derived stock, and finally the append of the new document. -/
def crear_movimiento (movimientos : List Movimiento) (newId : String)
    (req : MovimientoRequest) : ResultadoMovimientos :=
  let tipo := req.tipo.getD ""
  let fecha := req.fecha.getD ""
  let medicamento_id := req.medicamento_id.getD ""
  let cantidad := req.cantidad.getD 0
  if tipo = "" ∨ fecha = "" ∨ medicamento_id = "" ∨ cantidad = 0 then
    ⟨movimientos, 400, "Datos incompletos"⟩
  else if ¬ tipo = "INGRESO" ∧ ¬ tipo = "SALIDA" then
    ⟨movimientos, 400, "Tipo inválido"⟩
  else if cantidad ≤ 0 then
    ⟨movimientos, 400, "Cantidad debe ser mayor a 0"⟩
  else if tipo = "SALIDA" ∧
      calcular_stock_medicamento (some movimientos) medicamento_id < cantidad then
    ⟨movimientos, 400, "Stock insuficiente"⟩
  else
    ⟨movimientos ++ [⟨newId, medicamento_id, some tipo, fecha, some cantidad,
        req.turno, req.fecha_vencimiento, req.observaciones⟩],
      201, "Movimiento registrado"⟩

/-- `eliminar_movimiento`: unconditional deletion of the document with the
given id; no stock check of any kind. -/
def eliminar_movimiento (movimientos : List Movimiento) (id : String) :
    ResultadoMovimientos :=
  ⟨movimientos.filter (fun mov => ¬ mov.id = id), 200, "Movimiento eliminado"⟩

/-- Request body of `PUT /api/movimientos/<id>`. -/
structure ActualizarMovimientoRequest where
  cantidad : Option Int
  fecha : Option String
  turno : Option String
deriving Repr

/-- `actualizar_movimiento`: validate quantity and date, 404 when the
document does not exist, then overwrite quantity, date and (when supplied)
shift in place.  No stock-sufficiency check is performed. -/
def actualizar_movimiento (movimientos : List Movimiento) (id : String)
    (req : ActualizarMovimientoRequest) : ResultadoMovimientos :=
  let nueva_cantidad := req.cantidad.getD 0
  let nueva_fecha := req.fecha.getD ""
  if nueva_cantidad < 1 then ⟨movimientos, 400, "Cantidad inválida"⟩
  else if nueva_fecha = "" then ⟨movimientos, 400, "Fecha requerida"⟩
  else
    match movimientos.find? (fun mov => mov.id = id) with
    | none => ⟨movimientos, 404, "Movimiento no encontrado"⟩
    | some _ =>
      ⟨movimientos.map (fun mov =>
          if mov.id = id then
            { mov with
              cantidad := some nueva_cantidad
              fecha := nueva_fecha
              turno := if ¬ req.turno.getD "" = "" then req.turno else mov.turno }
          else mov),
        200, "Movimiento actualizado"⟩

/-- The inventory status classification of `get_inventario`.  The Python
comparison `stock <= stock_minimo * 1.5` is embedded over the rationals. -/
def estadoStock (stock : Int) (stock_minimo : Int) : String :=
  if stock ≤ 0 then "AGOTADO"
  else if stock ≤ stock_minimo then "CRITICO"
  else if (stock : ℚ) ≤ (stock_minimo : ℚ) * 1.5 then "BAJO"
  else "OK"

/-- The running per-medication aggregate of `analisis_demanda` (the value
of the `demanda` dictionary). -/
structure InfoDemanda where
  cantidad : Int
  frecuencia : Nat
deriving DecidableEq, Repr

/-- One in-window SALIDA added to the `demanda` dictionary, modelled as an
insertion-ordered association list: an existing key is updated in place, a
new key is appended. -/
def agregarSalida : List (String × InfoDemanda) → String → Int →
    List (String × InfoDemanda)
  | [], med_id, c => [(med_id, ⟨c, 1⟩)]
  | (k, d) :: resto, med_id, c =>
    if k = med_id then (k, ⟨d.cantidad + c, d.frecuencia + 1⟩) :: resto
    else (k, d) :: agregarSalida resto med_id c

/-- One iteration of the movement loop of `analisis_demanda`: the Firestore
query keeps documents with `tipo == 'SALIDA'` and the Python filter keeps
`fecha >= fecha_desde` (no upper bound). -/
def pasoDemanda (fecha_desde : String) (acc : List (String × InfoDemanda))
    (mov : Movimiento) : List (String × InfoDemanda) :=
  if mov.tipo = some "SALIDA" ∧ pyStrLe fecha_desde mov.fecha then
    agregarSalida acc mov.medicamento_id (mov.cantidad.getD 0)
  else acc

/-- An entry of the `resultado` list of `analisis_demanda`.  The grouping
key `med_id` is kept with the entry (it is the dictionary key the entry was
built from); the JSON response serialises the other four fields. -/
structure EntradaDemanda where
  med_id : String
  nombre : String
  total_dispensado : Int
  frecuencia : Nat
  promedio_diario : ℚ
deriving Repr

/-- Round to the nearest integer, ties to the even integer, as Python
`round` does. -/
def roundHalfEven (q : ℚ) : ℤ :=
  if q - ⌊q⌋ < 1 / 2 then ⌊q⌋
  else if (1 : ℚ) / 2 < q - ⌊q⌋ then ⌊q⌋ + 1
  else if 2 ∣ ⌊q⌋ then ⌊q⌋ else ⌊q⌋ + 1

/-- Python `round(q, 2)`, modelled on exact rationals. -/
def pyRound2 (q : ℚ) : ℚ := (roundHalfEven (q * 100) : ℚ) / 100

/-- Sort order of `resultado.sort(key=..., reverse=True)`: descending by
total dispensed. -/
def ordenDemanda (a b : EntradaDemanda) : Prop :=
  b.total_dispensado ≤ a.total_dispensado

instance : DecidableRel ordenDemanda := fun a b =>
  inferInstanceAs (Decidable (b.total_dispensado ≤ a.total_dispensado))

instance : IsTotal EntradaDemanda ordenDemanda :=
  ⟨fun a b => le_total b.total_dispensado a.total_dispensado⟩

instance : IsTrans EntradaDemanda ordenDemanda :=
  ⟨fun _ _ _ hab hbc => le_trans hbc hab⟩

/-- `analisis_demanda` before the `[:10]` truncation: group the in-window
SALIDA movements by medication in insertion order, keep the groups whose
medication document exists, build the response entries and sort them
descending by total dispensed (a stable sort, as Python sort is). -/
def analisis_demanda_completo (medicamentos : List Medicamento)
    (movimientos : List Movimiento) (fecha_desde : String) (dias : ℕ) :
    List EntradaDemanda :=
  let demanda := movimientos.foldl (pasoDemanda fecha_desde) []
  let resultado := demanda.filterMap (fun p =>
    match medicamentos.find? (fun med => med.id = p.1) with
    | none => none
    | some med =>
      some ⟨p.1, med.nombre, p.2.cantidad, p.2.frecuencia,
        pyRound2 ((p.2.cantidad : ℚ) / (dias : ℚ))⟩)
  List.insertionSort ordenDemanda resultado

/-- `analisis_demanda`: the sorted aggregation truncated to the top 10. -/
def analisis_demanda (medicamentos : List Medicamento)
    (movimientos : List Movimiento) (fecha_desde : String) (dias : ℕ) :
    List EntradaDemanda :=
  (analisis_demanda_completo medicamentos movimientos fecha_desde dias).take 10

/-- Total quantity of the SALIDA movements of a medication dated on or
after `fecha_desde` (the filter `analisis_demanda` actually applies). -/
def salidasVentana (movimientos : List Movimiento) (fecha_desde : String)
    (medicamento_id : String) : Int :=
  ((movimientos.filter (fun mov => mov.tipo = some "SALIDA" ∧
      pyStrLe fecha_desde mov.fecha ∧ mov.medicamento_id = medicamento_id)).map
    (fun mov => mov.cantidad.getD 0)).sum

/-- Number of SALIDA movements of a medication dated on or after
`fecha_desde`. -/
def frecuenciaVentana (movimientos : List Movimiento) (fecha_desde : String)
    (medicamento_id : String) : Nat :=
  (movimientos.filter (fun mov => mov.tipo = some "SALIDA" ∧
      pyStrLe fecha_desde mov.fecha ∧ mov.medicamento_id = medicamento_id)).length

/-- Total quantity of the SALIDA movements inside the two-sided trailing
window, written from the words of the specification (date within the
trailing window, i.e. between its start and today) for comparison with
what the code computes. -/
def salidasVentanaSpec (movimientos : List Movimiento)
    (fecha_desde hoy : String) (medicamento_id : String) : Int :=
  ((movimientos.filter (fun mov => mov.tipo = some "SALIDA" ∧
      pyStrLe fecha_desde mov.fecha ∧ pyStrLe mov.fecha hoy ∧
      mov.medicamento_id = medicamento_id)).map
    (fun mov => mov.cantidad.getD 0)).sum

/-- The three per-shift demand cells of one day of a report row: a cell is
written only when the total of the matching SALIDA movements is positive
(`if total > 0`), and is blank (`none`) otherwise. -/
def celdasDia (movimientos_salida : List Movimiento) (fecha_dia : String) :
    List (Option Int) :=
  ["M", "T", "N"].map (fun turno =>
    let total := ((movimientos_salida.filter (fun mov =>
        mov.fecha = fecha_dia ∧ mov.turno = some turno)).map
      (fun mov => mov.cantidad.getD 0)).sum
    if 0 < total then some total else none)

/-- One medication row of `crear_reporte_excel`: the per-day-per-shift
demand cells, the period demand total, and the current stock.  `fechas`
are the date strings of the window (`str(fecha_inicio + k)` for each day
offset, supplied by the calendar library); the weekly route passes seven
of them since `dias = (fecha_fin - fecha_inicio).days + 1 = 7`. -/
structure FilaReporte where
  celdas_demanda : List (Option Int)
  demanda_total : Int
  stock_actual : Int
deriving Repr

/-- Build one medication row of the report grid. -/
def crear_reporte_fila (movimientos : List Movimiento) (med_id : String)
    (fechas : List String) (fecha_inicio fecha_fin : String) : FilaReporte :=
  let movimientos_salida := movimientos.filter (fun mov =>
    mov.medicamento_id = med_id ∧ mov.tipo = some "SALIDA")
  { celdas_demanda := fechas.flatMap (celdasDia movimientos_salida)
    demanda_total := ((movimientos_salida.filter (fun mov =>
        pyStrLe fecha_inicio mov.fecha ∧ pyStrLe mov.fecha fecha_fin)).map
      (fun mov => mov.cantidad.getD 0)).sum
    stock_actual := calcular_stock_medicamento (some movimientos) med_id }

/-- Value stored under a key of the `demanda` association list, the pair
`(0, 0)` when the key is absent (specification accessor for the proofs). -/
def buscarDemanda (acc : List (String × InfoDemanda)) (k : String) :
    InfoDemanda :=
  match acc.find? (fun p => p.1 = k) with
  | none => ⟨0, 0⟩
  | some p => p.2

/-! ## Lemmas about the stock ledger -/

theorem ingresosDe_cons (mov : Movimiento) (resto : List Movimiento)
    (mid : String) :
    ingresosDe (mov :: resto) mid =
      (if mov.medicamento_id = mid ∧ mov.tipo.getD "" = "INGRESO" then
        mov.cantidad.getD 0 else 0) + ingresosDe resto mid := by
  by_cases h : mov.medicamento_id = mid ∧ mov.tipo.getD "" = "INGRESO" <;>
    simp [ingresosDe, List.filter_cons, h]

theorem salidasDe_cons (mov : Movimiento) (resto : List Movimiento)
    (mid : String) :
    salidasDe (mov :: resto) mid =
      (if mov.medicamento_id = mid ∧ mov.tipo.getD "" = "SALIDA" then
        mov.cantidad.getD 0 else 0) + salidasDe resto mid := by
  by_cases h : mov.medicamento_id = mid ∧ mov.tipo.getD "" = "SALIDA" <;>
    simp [salidasDe, List.filter_cons, h]

theorem ingresosDe_append (l1 l2 : List Movimiento) (mid : String) :
    ingresosDe (l1 ++ l2) mid = ingresosDe l1 mid + ingresosDe l2 mid := by
  simp [ingresosDe, List.filter_append]

theorem salidasDe_append (l1 l2 : List Movimiento) (mid : String) :
    salidasDe (l1 ++ l2) mid = salidasDe l1 mid + salidasDe l2 mid := by
  simp [salidasDe, List.filter_append]

theorem foldl_pasoStock (mid : String) (movs : List Movimiento) :
    ∀ a b : Int, movs.foldl (pasoStock mid) (a, b) =
      (a + ingresosDe movs mid, b + salidasDe movs mid) := by
  induction movs with
  | nil => intro a b; simp [ingresosDe, salidasDe]
  | cons mov resto ih =>
    intro a b
    rw [List.foldl_cons, ingresosDe_cons, salidasDe_cons]
    by_cases hmed : mov.medicamento_id = mid
    · by_cases hin : mov.tipo.getD "" = "INGRESO"
      · have hp : pasoStock mid (a, b) mov = (a + mov.cantidad.getD 0, b) := by
          simp [pasoStock, hmed, hin]
        rw [hp, ih]
        have hnosal : ¬ mov.tipo.getD "" = "SALIDA" := by
          rw [hin]; decide
        simp [hmed, hin, hnosal, Prod.ext_iff, add_assoc]
      · by_cases hsal : mov.tipo.getD "" = "SALIDA"
        · have hp : pasoStock mid (a, b) mov = (a, b + mov.cantidad.getD 0) := by
            simp [pasoStock, hmed, hin, hsal]
          rw [hp, ih]
          simp [hmed, hin, hsal, Prod.ext_iff, add_assoc]
        · have hp : pasoStock mid (a, b) mov = (a, b) := by
            simp [pasoStock, hmed, hin, hsal]
          rw [hp, ih]
          simp [hmed, hin, hsal]
    · have hp : pasoStock mid (a, b) mov = (a, b) := by
        simp [pasoStock, hmed]
      rw [hp, ih]
      simp [hmed]

theorem calcular_stock_eq (movs : List Movimiento) (mid : String) :
    calcular_stock_medicamento (some movs) mid =
      ingresosDe movs mid - salidasDe movs mid := by
  have h := foldl_pasoStock mid movs 0 0
  show (movs.foldl (pasoStock mid) (0, 0)).1 -
      (movs.foldl (pasoStock mid) (0, 0)).2 =
    ingresosDe movs mid - salidasDe movs mid
  rw [h]
  simp

theorem calcular_stock_perm (movs movs' : List Movimiento) (mid : String)
    (h : movs.Perm movs') :
    calcular_stock_medicamento (some movs') mid =
      calcular_stock_medicamento (some movs) mid := by
  rw [calcular_stock_eq, calcular_stock_eq]
  unfold ingresosDe salidasDe
  rw [((h.filter _).map _).sum_eq, ((h.filter _).map _).sum_eq]

/-! ## Lemma putting the classification tests over the integers -/

theorem banda_rac_int (s m : ℤ) :
    ((s : ℚ) ≤ (m : ℚ) * 1.5) ↔ 2 * s ≤ 3 * m := by
  constructor
  · intro hh
    have h2 : ((2 * s : ℤ) : ℚ) ≤ ((3 * m : ℤ) : ℚ) := by push_cast; linarith
    exact_mod_cast h2
  · intro hh
    have h2 : ((2 * s : ℤ) : ℚ) ≤ ((3 * m : ℤ) : ℚ) := by exact_mod_cast hh
    push_cast at h2; linarith

theorem estadoStock_eq_int (s m : ℤ) :
    estadoStock s m =
      if s ≤ 0 then "AGOTADO"
      else if s ≤ m then "CRITICO"
      else if 2 * s ≤ 3 * m then "BAJO"
      else "OK" := by
  unfold estadoStock
  by_cases h1 : s ≤ 0
  · simp [h1]
  · by_cases h2 : s ≤ m
    · simp [h1, h2]
    · by_cases h3 : 2 * s ≤ 3 * m
      · rw [if_neg h1, if_neg h2, if_pos ((banda_rac_int s m).mpr h3),
          if_neg h1, if_neg h2, if_pos h3]
      · rw [if_neg h1, if_neg h2,
          if_neg (fun hc => h3 ((banda_rac_int s m).mp hc)),
          if_neg h1, if_neg h2, if_neg h3]

/-! ## Claim theorems about the stock ledger -/

/-- C1: over any movement log, `calcular_stock_medicamento` returns the sum
of the INGRESO quantities minus the sum of the SALIDA quantities of the
medication, and the value is invariant under any permutation of the log
(order of reads is irrelevant).  The embedding is a pure function of the
log, so the computation has no side effect on it. -/
theorem stock_suma_firmada (movs movs' : List Movimiento) (mid : String)
    (h : movs.Perm movs') :
    calcular_stock_medicamento (some movs) mid =
      ingresosDe movs mid - salidasDe movs mid ∧
    calcular_stock_medicamento (some movs') mid =
      calcular_stock_medicamento (some movs) mid :=
  ⟨calcular_stock_eq movs mid, calcular_stock_perm movs movs' mid h⟩

theorem stock_suma_firmada_witness :
    (([⟨"m1", "med1", some "INGRESO", "2026-01-01", some 5, some "M", none, none⟩,
       ⟨"m2", "med1", some "SALIDA", "2026-01-02", some 2, some "T", none, none⟩] :
        List Movimiento).Perm
      [⟨"m2", "med1", some "SALIDA", "2026-01-02", some 2, some "T", none, none⟩,
       ⟨"m1", "med1", some "INGRESO", "2026-01-01", some 5, some "M", none, none⟩]) ∧
    (calcular_stock_medicamento
        (some [⟨"m1", "med1", some "INGRESO", "2026-01-01", some 5, some "M", none, none⟩,
               ⟨"m2", "med1", some "SALIDA", "2026-01-02", some 2, some "T", none, none⟩])
        "med1" =
      ingresosDe
        [⟨"m1", "med1", some "INGRESO", "2026-01-01", some 5, some "M", none, none⟩,
         ⟨"m2", "med1", some "SALIDA", "2026-01-02", some 2, some "T", none, none⟩] "med1" -
      salidasDe
        [⟨"m1", "med1", some "INGRESO", "2026-01-01", some 5, some "M", none, none⟩,
         ⟨"m2", "med1", some "SALIDA", "2026-01-02", some 2, some "T", none, none⟩] "med1" ∧
     calcular_stock_medicamento
        (some [⟨"m2", "med1", some "SALIDA", "2026-01-02", some 2, some "T", none, none⟩,
               ⟨"m1", "med1", some "INGRESO", "2026-01-01", some 5, some "M", none, none⟩])
        "med1" =
      calcular_stock_medicamento
        (some [⟨"m1", "med1", some "INGRESO", "2026-01-01", some 5, some "M", none, none⟩,
               ⟨"m2", "med1", some "SALIDA", "2026-01-02", some 2, some "T", none, none⟩])
        "med1") :=
  ⟨List.Perm.swap _ _ _, stock_suma_firmada _ _ _ (List.Perm.swap _ _ _)⟩

/-- C6: with the storage unreachable (`db = none`) the stock computation
returns the neutral value 0 instead of an error; with any reachable store
it is a total function returning the signed sum, so it never raises. -/
theorem stock_almacen_inalcanzable (mid : String) :
    calcular_stock_medicamento none mid = 0 ∧
    ∀ movs : List Movimiento,
      calcular_stock_medicamento (some movs) mid =
        ingresosDe movs mid - salidasDe movs mid :=
  ⟨rfl, fun movs => calcular_stock_eq movs mid⟩

/-- C10: a movement whose type is neither INGRESO nor SALIDA, or whose
quantity field is missing (read as 0), contributes nothing to the derived
stock; the computation is total on such records. -/
theorem stock_ignora_registros_ajenos (movs1 movs2 : List Movimiento)
    (mov : Movimiento) (mid : String)
    (h : (¬ mov.tipo.getD "" = "INGRESO" ∧ ¬ mov.tipo.getD "" = "SALIDA") ∨
      mov.cantidad = none) :
    calcular_stock_medicamento (some (movs1 ++ mov :: movs2)) mid =
      calcular_stock_medicamento (some (movs1 ++ movs2)) mid := by
  rw [calcular_stock_eq, calcular_stock_eq]
  have hmov : (movs1 ++ mov :: movs2) = movs1 ++ [mov] ++ movs2 := by simp
  rw [hmov]
  rw [ingresosDe_append, ingresosDe_append, ingresosDe_append,
    salidasDe_append, salidasDe_append, salidasDe_append]
  have hi : ingresosDe [mov] mid = 0 := by
    rw [show ([mov] : List Movimiento) = mov :: [] from rfl, ingresosDe_cons]
    rcases h with ⟨h1, _⟩ | h2
    · simp [h1, ingresosDe]
    · simp [h2, ingresosDe]
  have hs : salidasDe [mov] mid = 0 := by
    rw [show ([mov] : List Movimiento) = mov :: [] from rfl, salidasDe_cons]
    rcases h with ⟨_, h1⟩ | h2
    · simp [h1, salidasDe]
    · simp [h2, salidasDe]
  rw [hi, hs]
  ring

theorem stock_ignora_registros_ajenos_witness :
    ((¬ (⟨"m9", "med1", some "AJUSTE", "2026-01-03", some 7, none, none, none⟩ :
        Movimiento).tipo.getD "" = "INGRESO" ∧
      ¬ (⟨"m9", "med1", some "AJUSTE", "2026-01-03", some 7, none, none, none⟩ :
        Movimiento).tipo.getD "" = "SALIDA") ∨
      (⟨"m9", "med1", some "AJUSTE", "2026-01-03", some 7, none, none, none⟩ :
        Movimiento).cantidad = none) ∧
    calcular_stock_medicamento
      (some ([⟨"m1", "med1", some "INGRESO", "2026-01-01", some 5, some "M", none, none⟩] ++
        (⟨"m9", "med1", some "AJUSTE", "2026-01-03", some 7, none, none, none⟩ :
          Movimiento) :: []))
      "med1" =
    calcular_stock_medicamento
      (some ([⟨"m1", "med1", some "INGRESO", "2026-01-01", some 5, some "M", none, none⟩] ++
        ([] : List Movimiento)))
      "med1" :=
  ⟨Or.inl (by decide), stock_ignora_registros_ajenos _ _ _ _ (Or.inl (by decide))⟩

/-- C3: for minimum stock at least 1, the four status bands are exactly
AGOTADO for stock at most 0, CRITICO for stock in (0, m], BAJO for stock in
(m, 1.5 m], OK above 1.5 m; in particular stock equal to the minimum is
CRITICO, and stock equal to 1.5 m (the minimum being even) is BAJO. -/
theorem estado_bandas (s m : ℤ) (h : 1 ≤ m) :
    (estadoStock s m = "AGOTADO" ↔ s ≤ 0) ∧
    (estadoStock s m = "CRITICO" ↔ 0 < s ∧ s ≤ m) ∧
    (estadoStock s m = "BAJO" ↔ m < s ∧ (s : ℚ) ≤ (m : ℚ) * 1.5) ∧
    (estadoStock s m = "OK" ↔ (m : ℚ) * 1.5 < (s : ℚ)) ∧
    estadoStock m m = "CRITICO" ∧
    (∀ k : ℤ, m = 2 * k → estadoStock (3 * k) m = "BAJO") := by
  have hq := banda_rac_int s m
  have hq2 : ((m : ℚ) * 1.5 < (s : ℚ)) ↔ ¬ (2 * s ≤ 3 * m) := by
    rw [← hq]; exact lt_iff_not_le
  have hmm : estadoStock m m = "CRITICO" := by
    rw [estadoStock_eq_int, if_neg (by omega), if_pos (le_refl m)]
  have hbk : ∀ k : ℤ, m = 2 * k → estadoStock (3 * k) m = "BAJO" := by
    intro k hk
    rw [estadoStock_eq_int, if_neg (by omega), if_neg (by omega),
      if_pos (by omega)]
  refine ⟨?_, ?_, ?_, ?_, hmm, hbk⟩
  · rw [estadoStock_eq_int]
    split_ifs with h1 h2 h3 <;>
      (constructor <;> intro hh <;>
        first
          | rfl
          | omega
          | exact absurd hh (by decide))
  · rw [estadoStock_eq_int]
    split_ifs with h1 h2 h3 <;>
      (constructor <;> intro hh <;>
        first
          | rfl
          | omega
          | exact absurd hh (by decide))
  · rw [estadoStock_eq_int, hq]
    split_ifs with h1 h2 h3 <;>
      (constructor <;> intro hh <;>
        first
          | rfl
          | omega
          | exact absurd hh (by decide))
  · rw [estadoStock_eq_int, hq2]
    split_ifs with h1 h2 h3 <;>
      (constructor <;> intro hh <;>
        first
          | rfl
          | omega
          | exact absurd hh (by decide))

theorem estado_bandas_witness :
    (1 : ℤ) ≤ 10 ∧
    ((estadoStock 7 10 = "AGOTADO" ↔ (7 : ℤ) ≤ 0) ∧
     (estadoStock 7 10 = "CRITICO" ↔ (0 : ℤ) < 7 ∧ (7 : ℤ) ≤ 10) ∧
     (estadoStock 7 10 = "BAJO" ↔ (10 : ℤ) < 7 ∧ ((7 : ℤ) : ℚ) ≤ ((10 : ℤ) : ℚ) * 1.5) ∧
     (estadoStock 7 10 = "OK" ↔ ((10 : ℤ) : ℚ) * 1.5 < ((7 : ℤ) : ℚ)) ∧
     estadoStock 10 10 = "CRITICO" ∧
     (∀ k : ℤ, (10 : ℤ) = 2 * k → estadoStock (3 * k) 10 = "BAJO")) :=
  ⟨by decide, estado_bandas 7 10 (by decide)⟩

/-! ## Claim theorems about the CRUD routes -/

/-- C5: deleting a medication referenced by at least one movement returns
400 and leaves the collection untouched; deleting one with no referencing
movement returns 200 and removes exactly the documents with that id. -/
theorem eliminar_medicamento_reglas (meds : List Medicamento)
    (movs : List Movimiento) (id : String) :
    ((∃ mov ∈ movs, mov.medicamento_id = id) →
      (eliminar_medicamento_ruta meds movs id).status = 400 ∧
      (eliminar_medicamento_ruta meds movs id).medicamentos = meds) ∧
    ((∀ mov ∈ movs, ¬ mov.medicamento_id = id) →
      (eliminar_medicamento_ruta meds movs id).status = 200 ∧
      (eliminar_medicamento_ruta meds movs id).medicamentos =
        meds.filter (fun med => ¬ med.id = id) ∧
      ∀ med ∈ (eliminar_medicamento_ruta meds movs id).medicamentos,
        ¬ med.id = id) := by
  constructor
  · rintro ⟨mov, hmm, hid⟩
    have hmem : mov ∈ movs.filter (fun mov => mov.medicamento_id = id) :=
      List.mem_filter.mpr ⟨hmm, by simp [hid]⟩
    have hpos := List.length_pos_of_mem hmem
    simp only [eliminar_medicamento_ruta]
    rw [if_pos hpos]
    exact ⟨rfl, rfl⟩
  · intro h
    have hnil : movs.filter (fun mov => mov.medicamento_id = id) = [] := by
      rw [List.filter_eq_nil_iff]
      intro mov hmm
      simp [h mov hmm]
    simp only [eliminar_medicamento_ruta]
    rw [hnil]
    refine ⟨rfl, rfl, ?_⟩
    intro med hmed
    have hmed2 : med ∈ meds.filter (fun med => ¬ med.id = id) := hmed
    have hdec := (List.mem_filter.mp hmed2).2
    simpa using hdec

theorem eliminar_medicamento_reglas_witness :
    (∃ mov ∈ ([⟨"m1", "med1", some "INGRESO", "2026-01-01", some 5, none, none,
        none⟩] : List Movimiento), mov.medicamento_id = "med1") ∧
    ((eliminar_medicamento_ruta [⟨"med1", "Aspirina", 10, 0⟩]
        [⟨"m1", "med1", some "INGRESO", "2026-01-01", some 5, none, none, none⟩]
        "med1").status = 400 ∧
     (eliminar_medicamento_ruta [⟨"med1", "Aspirina", 10, 0⟩]
        [⟨"m1", "med1", some "INGRESO", "2026-01-01", some 5, none, none, none⟩]
        "med1").medicamentos = [⟨"med1", "Aspirina", 10, 0⟩]) :=
  ⟨by decide,
    (eliminar_medicamento_reglas [⟨"med1", "Aspirina", 10, 0⟩]
      [⟨"m1", "med1", some "INGRESO", "2026-01-01", some 5, none, none, none⟩]
      "med1").1 (by decide)⟩

/-- C7: creating a medication whose trimmed name equals a stored name
returns 409 and stores nothing; with a fresh nonempty trimmed name and
minimum stock at least 1 it returns 201 and appends the document. -/
theorem crear_medicamento_reglas (meds : List Medicamento)
    (newId nombre : String) (sm : Int)
    (hn : ¬ pyStrip nombre = "") (hs : 1 ≤ sm) :
    ((∃ med ∈ meds, med.nombre = pyStrip nombre) →
      (crear_medicamento meds newId ⟨some nombre, some sm⟩).status = 409 ∧
      (crear_medicamento meds newId ⟨some nombre, some sm⟩).medicamentos =
        meds) ∧
    ((∀ med ∈ meds, ¬ med.nombre = pyStrip nombre) →
      (crear_medicamento meds newId ⟨some nombre, some sm⟩).status = 201 ∧
      (crear_medicamento meds newId ⟨some nombre, some sm⟩).medicamentos =
        meds ++ [⟨newId, pyStrip nombre, sm, maxOrden meds + 1⟩]) := by
  have hsm : ¬ sm < 1 := by omega
  constructor
  · rintro ⟨med, hmm, hnom⟩
    have hmem : med ∈ meds.filter (fun med => med.nombre = pyStrip nombre) :=
      List.mem_filter.mpr ⟨hmm, by simp [hnom]⟩
    have hpos := List.length_pos_of_mem hmem
    simp only [crear_medicamento, Option.getD_some]
    rw [if_neg hn, if_neg hsm, if_pos hpos]
    exact ⟨rfl, rfl⟩
  · intro h
    have hnil : meds.filter (fun med => med.nombre = pyStrip nombre) = [] := by
      rw [List.filter_eq_nil_iff]
      intro med hmm
      simp [h med hmm]
    simp only [crear_medicamento, Option.getD_some]
    rw [if_neg hn, if_neg hsm, hnil]
    exact ⟨rfl, rfl⟩

theorem crear_medicamento_reglas_witness :
    (¬ pyStrip " Aspirina " = "") ∧ ((1 : Int) ≤ 10) ∧
    ((∃ med ∈ ([⟨"med1", "Aspirina", 10, 0⟩] : List Medicamento),
        med.nombre = pyStrip " Aspirina ") ∧
     (crear_medicamento [⟨"med1", "Aspirina", 10, 0⟩] "med2"
        ⟨some " Aspirina ", some 10⟩).status = 409 ∧
     (crear_medicamento [⟨"med1", "Aspirina", 10, 0⟩] "med2"
        ⟨some " Aspirina ", some 10⟩).medicamentos =
       [⟨"med1", "Aspirina", 10, 0⟩]) :=
  ⟨by decide, by decide,
    by
      refine ⟨by decide, ?_⟩
      exact (crear_medicamento_reglas [⟨"med1", "Aspirina", 10, 0⟩] "med2"
        " Aspirina " 10 (by decide) (by decide)).1 (by decide)⟩

/-- C2: inserting a SALIDA movement with quantity above the derived stock
returns 400 with the insufficient-stock message and leaves the log (hence
the derived stock of every medication) untouched; with quantity between 1
and the derived stock it returns 201 and appends the movement. -/
theorem crear_movimiento_salida_reglas (movs : List Movimiento)
    (newId f mid : String) (c : Int) (t fv obs : Option String)
    (hf : ¬ f = "") (hm : ¬ mid = "") (hc : 1 ≤ c) :
    (calcular_stock_medicamento (some movs) mid < c →
      (crear_movimiento movs newId
        ⟨some "SALIDA", some f, some mid, some c, t, fv, obs⟩).status = 400 ∧
      (crear_movimiento movs newId
        ⟨some "SALIDA", some f, some mid, some c, t, fv, obs⟩).msg =
        "Stock insuficiente" ∧
      (crear_movimiento movs newId
        ⟨some "SALIDA", some f, some mid, some c, t, fv, obs⟩).movimientos =
        movs ∧
      ∀ x : String,
        calcular_stock_medicamento
          (some (crear_movimiento movs newId
            ⟨some "SALIDA", some f, some mid, some c, t, fv, obs⟩).movimientos)
          x = calcular_stock_medicamento (some movs) x) ∧
    (c ≤ calcular_stock_medicamento (some movs) mid →
      (crear_movimiento movs newId
        ⟨some "SALIDA", some f, some mid, some c, t, fv, obs⟩).status = 201 ∧
      (crear_movimiento movs newId
        ⟨some "SALIDA", some f, some mid, some c, t, fv, obs⟩).movimientos =
        movs ++ [⟨newId, mid, some "SALIDA", f, some c, t, fv, obs⟩]) := by
  have h0 : ¬ (("SALIDA" : String) = "" ∨ f = "" ∨ mid = "" ∨ c = 0) := by
    push_neg
    exact ⟨by decide, hf, hm, by omega⟩
  have h1 : ¬ (¬ ("SALIDA" : String) = "INGRESO" ∧ ¬ True) := by simp
  have h2 : ¬ c ≤ 0 := by omega
  constructor
  · intro hlt
    have h3 : True ∧ calcular_stock_medicamento (some movs) mid < c :=
      ⟨trivial, hlt⟩
    simp only [crear_movimiento, Option.getD_some]
    rw [if_neg h0, if_neg h1, if_neg h2, if_pos h3]
    exact ⟨rfl, rfl, rfl, fun x => rfl⟩
  · intro hge
    have h3 : ¬ (True ∧ calcular_stock_medicamento (some movs) mid < c) := by
      rintro ⟨-, hlt⟩
      omega
    simp only [crear_movimiento, Option.getD_some]
    rw [if_neg h0, if_neg h1, if_neg h2, if_neg h3]
    exact ⟨rfl, rfl⟩

theorem crear_movimiento_salida_reglas_witness :
    (¬ ("2026-02-01" : String) = "") ∧ (¬ ("med1" : String) = "") ∧
    ((1 : Int) ≤ 2) ∧
    ((2 : Int) ≤ calcular_stock_medicamento
      (some [⟨"m1", "med1", some "INGRESO", "2026-01-01", some 5, none, none,
        none⟩]) "med1") ∧
    ((crear_movimiento
        [⟨"m1", "med1", some "INGRESO", "2026-01-01", some 5, none, none, none⟩]
        "m2" ⟨some "SALIDA", some "2026-02-01", some "med1", some 2, some "M",
          none, none⟩).status = 201 ∧
     (crear_movimiento
        [⟨"m1", "med1", some "INGRESO", "2026-01-01", some 5, none, none, none⟩]
        "m2" ⟨some "SALIDA", some "2026-02-01", some "med1", some 2, some "M",
          none, none⟩).movimientos =
       [⟨"m1", "med1", some "INGRESO", "2026-01-01", some 5, none, none, none⟩] ++
         [⟨"m2", "med1", some "SALIDA", "2026-02-01", some 2, some "M", none,
           none⟩]) :=
  ⟨by decide, by decide, by decide, by decide,
    (crear_movimiento_salida_reglas
      [⟨"m1", "med1", some "INGRESO", "2026-01-01", some 5, none, none, none⟩]
      "m2" "2026-02-01" "med1" 2 (some "M") none none
      (by decide) (by decide) (by decide)).2 (by decide)⟩

/-- C9: updating an existing movement with any quantity at least 1 and a
nonempty date succeeds with no stock-sufficiency check, and deleting any
movement always succeeds; concretely, raising the quantity of a SALIDA to
10 against a stock of 5, and deleting the only INGRESO, both return 200
and leave a derived stock of -5, so the non-negativity invariant enforced
at insertion is not preserved by update and delete. -/
theorem movimientos_sin_invariante (movs : List Movimiento) (id : String)
    (c : Int) (f : String) (t : Option String)
    (hc : 1 ≤ c) (hf : ¬ f = "") (hex : ∃ mov ∈ movs, mov.id = id) :
    ((actualizar_movimiento movs id ⟨some c, some f, t⟩).status = 200 ∧
     (actualizar_movimiento movs id ⟨some c, some f, t⟩).movimientos =
       movs.map (fun mov =>
         if mov.id = id then
           { mov with
             cantidad := some c
             fecha := f
             turno := if ¬ t.getD "" = "" then t else mov.turno }
         else mov)) ∧
    (∀ (movs' : List Movimiento) (id' : String),
      (eliminar_movimiento movs' id').status = 200 ∧
      (eliminar_movimiento movs' id').movimientos =
        movs'.filter (fun mov => ¬ mov.id = id')) ∧
    ((actualizar_movimiento
        [⟨"m1", "med1", some "INGRESO", "2026-01-01", some 5, none, none, none⟩,
         ⟨"m2", "med1", some "SALIDA", "2026-01-02", some 5, some "M", none, none⟩]
        "m2" ⟨some 10, some "2026-01-02", none⟩).status = 200 ∧
     calcular_stock_medicamento
       (some (actualizar_movimiento
         [⟨"m1", "med1", some "INGRESO", "2026-01-01", some 5, none, none, none⟩,
          ⟨"m2", "med1", some "SALIDA", "2026-01-02", some 5, some "M", none, none⟩]
         "m2" ⟨some 10, some "2026-01-02", none⟩).movimientos) "med1" = -5 ∧
     (eliminar_movimiento
        [⟨"m1", "med1", some "INGRESO", "2026-01-01", some 5, none, none, none⟩,
         ⟨"m2", "med1", some "SALIDA", "2026-01-02", some 5, some "M", none, none⟩]
        "m1").status = 200 ∧
     calcular_stock_medicamento
       (some (eliminar_movimiento
         [⟨"m1", "med1", some "INGRESO", "2026-01-01", some 5, none, none, none⟩,
          ⟨"m2", "med1", some "SALIDA", "2026-01-02", some 5, some "M", none, none⟩]
         "m1").movimientos) "med1" = -5) := by
  refine ⟨?_, fun movs' id' => ⟨rfl, rfl⟩, by decide, by decide, by decide,
    by decide⟩
  obtain ⟨mov, hmm, hid⟩ := hex
  cases hfind : movs.find? (fun mov => mov.id = id) with
  | none =>
    exfalso
    have := List.find?_eq_none.mp hfind mov hmm
    simp [hid] at this
  | some encontrado =>
    have h0 : ¬ c < 1 := by omega
    simp only [actualizar_movimiento, Option.getD_some]
    rw [if_neg h0, if_neg hf, hfind]
    exact ⟨rfl, rfl⟩

theorem movimientos_sin_invariante_witness :
    ((1 : Int) ≤ 10) ∧ (¬ ("2026-01-02" : String) = "") ∧
    (∃ mov ∈ ([⟨"m1", "med1", some "INGRESO", "2026-01-01", some 5, none, none,
          none⟩,
        ⟨"m2", "med1", some "SALIDA", "2026-01-02", some 5, some "M", none,
          none⟩] : List Movimiento), mov.id = "m2") ∧
    (actualizar_movimiento
      [⟨"m1", "med1", some "INGRESO", "2026-01-01", some 5, none, none, none⟩,
       ⟨"m2", "med1", some "SALIDA", "2026-01-02", some 5, some "M", none, none⟩]
      "m2" ⟨some 10, some "2026-01-02", none⟩).status = 200 :=
  ⟨by decide, by decide, by decide,
    (movimientos_sin_invariante
      [⟨"m1", "med1", some "INGRESO", "2026-01-01", some 5, none, none, none⟩,
       ⟨"m2", "med1", some "SALIDA", "2026-01-02", some 5, some "M", none, none⟩]
      "m2" 10 "2026-01-02" none (by decide) (by decide) (by decide)).1.1⟩

/-! ## Lemmas and claim theorem for the report grid -/

theorem celdasDia_length (movimientos_salida : List Movimiento)
    (fecha_dia : String) :
    (celdasDia movimientos_salida fecha_dia).length = 3 := by
  simp [celdasDia]

theorem flatMap_celdasDia_length (movimientos_salida : List Movimiento)
    (fechas : List String) :
    (fechas.flatMap (celdasDia movimientos_salida)).length =
      3 * fechas.length := by
  induction fechas with
  | nil => simp
  | cons fecha resto ih =>
    rw [List.flatMap_cons, List.length_append, celdasDia_length, ih,
      List.length_cons]
    ring

/-- C8: a report row for a 7-day window (the weekly route passes the seven
day strings of `fecha_inicio .. fecha_inicio + 6`) has exactly 7 times 3
per-day-per-shift demand cells, whatever the movement log holds, plus the
single period-total field of the row. -/
theorem fila_reporte_21_celdas (movimientos : List Movimiento)
    (med_id : String) (fechas : List String) (fecha_inicio fecha_fin : String)
    (h : fechas.length = 7) :
    (crear_reporte_fila movimientos med_id fechas fecha_inicio
      fecha_fin).celdas_demanda.length = 21 := by
  show (fechas.flatMap (celdasDia _)).length = 21
  rw [flatMap_celdasDia_length, h]

theorem fila_reporte_21_celdas_witness :
    (["2026-03-02", "2026-03-03", "2026-03-04", "2026-03-05", "2026-03-06",
        "2026-03-07", "2026-03-08"] : List String).length = 7 ∧
    (crear_reporte_fila
      [⟨"m1", "med1", some "SALIDA", "2026-03-02", some 2, some "M", none, none⟩]
      "med1"
      ["2026-03-02", "2026-03-03", "2026-03-04", "2026-03-05", "2026-03-06",
        "2026-03-07", "2026-03-08"]
      "2026-03-02" "2026-03-08").celdas_demanda.length = 21 :=
  ⟨by decide,
    fila_reporte_21_celdas
      [⟨"m1", "med1", some "SALIDA", "2026-03-02", some 2, some "M", none, none⟩]
      "med1"
      ["2026-03-02", "2026-03-03", "2026-03-04", "2026-03-05", "2026-03-06",
        "2026-03-07", "2026-03-08"]
      "2026-03-02" "2026-03-08" (by decide)⟩

/-! ## Lemmas about the demand aggregation -/

theorem salidasVentana_cons (mov : Movimiento) (resto : List Movimiento)
    (fd k : String) :
    salidasVentana (mov :: resto) fd k =
      (if mov.tipo = some "SALIDA" ∧ pyStrLe fd mov.fecha ∧
          mov.medicamento_id = k then mov.cantidad.getD 0 else 0) +
        salidasVentana resto fd k := by
  by_cases h : mov.tipo = some "SALIDA" ∧ pyStrLe fd mov.fecha ∧
      mov.medicamento_id = k <;>
    simp [salidasVentana, List.filter_cons, h]

theorem frecuenciaVentana_cons (mov : Movimiento) (resto : List Movimiento)
    (fd k : String) :
    frecuenciaVentana (mov :: resto) fd k =
      (if mov.tipo = some "SALIDA" ∧ pyStrLe fd mov.fecha ∧
          mov.medicamento_id = k then 1 else 0) +
        frecuenciaVentana resto fd k := by
  by_cases h : mov.tipo = some "SALIDA" ∧ pyStrLe fd mov.fecha ∧
      mov.medicamento_id = k <;>
    simp [frecuenciaVentana, List.filter_cons, h] <;>
    omega

theorem buscarDemanda_nil (k : String) : buscarDemanda [] k = ⟨0, 0⟩ := rfl

theorem buscarDemanda_agregar_misma (acc : List (String × InfoDemanda))
    (k : String) (c : Int) :
    buscarDemanda (agregarSalida acc k c) k =
      ⟨(buscarDemanda acc k).cantidad + c,
       (buscarDemanda acc k).frecuencia + 1⟩ := by
  induction acc with
  | nil => simp [agregarSalida, buscarDemanda]
  | cons p resto ih =>
    obtain ⟨k', d⟩ := p
    by_cases hk : k' = k
    · subst hk
      simp [agregarSalida, buscarDemanda, List.find?_cons_of_pos]
    · rw [show agregarSalida ((k', d) :: resto) k c =
          (k', d) :: agregarSalida resto k c from by simp [agregarSalida, hk]]
      rw [show buscarDemanda ((k', d) :: agregarSalida resto k c) k =
          buscarDemanda (agregarSalida resto k c) k from by
        simp [buscarDemanda, List.find?_cons_of_neg, hk]]
      rw [show buscarDemanda ((k', d) :: resto) k = buscarDemanda resto k from by
        simp [buscarDemanda, List.find?_cons_of_neg, hk]]
      exact ih

theorem buscarDemanda_agregar_otra (acc : List (String × InfoDemanda))
    (k k' : String) (c : Int) (h : ¬ k' = k) :
    buscarDemanda (agregarSalida acc k c) k' = buscarDemanda acc k' := by
  induction acc with
  | nil =>
    have hkk : ¬ k = k' := fun hh => h hh.symm
    simp [agregarSalida, buscarDemanda, hkk]
  | cons p resto ih =>
    obtain ⟨k0, d⟩ := p
    by_cases hk : k0 = k
    · subst hk
      rw [show agregarSalida ((k0, d) :: resto) k0 c =
          (k0, ⟨d.cantidad + c, d.frecuencia + 1⟩) :: resto from by
        simp [agregarSalida]]
      by_cases hq : k0 = k'
      · exact absurd hq.symm h
      · simp [buscarDemanda, List.find?_cons_of_neg, hq]
    · rw [show agregarSalida ((k0, d) :: resto) k c =
          (k0, d) :: agregarSalida resto k c from by simp [agregarSalida, hk]]
      by_cases hq : k0 = k'
      · subst hq
        simp [buscarDemanda, List.find?_cons_of_pos]
      · rw [show buscarDemanda ((k0, d) :: agregarSalida resto k c) k' =
            buscarDemanda (agregarSalida resto k c) k' from by
          simp [buscarDemanda, List.find?_cons_of_neg, hq]]
        rw [show buscarDemanda ((k0, d) :: resto) k' =
            buscarDemanda resto k' from by
          simp [buscarDemanda, List.find?_cons_of_neg, hq]]
        exact ih

theorem agregarSalida_claves (acc : List (String × InfoDemanda)) (k : String)
    (c : Int) :
    (agregarSalida acc k c).map Prod.fst =
      if k ∈ acc.map Prod.fst then acc.map Prod.fst
      else acc.map Prod.fst ++ [k] := by
  induction acc with
  | nil => simp [agregarSalida]
  | cons p resto ih =>
    obtain ⟨k0, d⟩ := p
    by_cases hk : k0 = k
    · subst hk
      simp [agregarSalida]
    · rw [show agregarSalida ((k0, d) :: resto) k c =
          (k0, d) :: agregarSalida resto k c from by simp [agregarSalida, hk]]
      have hkk : ¬ k = k0 := fun hh => hk hh.symm
      by_cases hmem : k ∈ resto.map Prod.fst
      · simp [ih, hmem, hkk]
      · simp [ih, hmem, hkk]

theorem agregarSalida_claves_nodup (acc : List (String × InfoDemanda))
    (k : String) (c : Int) (h : (acc.map Prod.fst).Nodup) :
    ((agregarSalida acc k c).map Prod.fst).Nodup := by
  rw [agregarSalida_claves]
  by_cases hmem : k ∈ acc.map Prod.fst
  · simpa [hmem] using h
  · rw [if_neg hmem, List.nodup_append]
    exact ⟨h, List.nodup_singleton k, by
      intro x hx hxk
      apply hmem
      simpa [List.mem_singleton.mp hxk] using hx⟩

theorem foldl_pasoDemanda_claves_nodup (fd : String) (movs : List Movimiento) :
    ∀ acc : List (String × InfoDemanda), (acc.map Prod.fst).Nodup →
      (((movs.foldl (pasoDemanda fd) acc)).map Prod.fst).Nodup := by
  induction movs with
  | nil => intro acc h; simpa using h
  | cons mov resto ih =>
    intro acc h
    rw [List.foldl_cons]
    by_cases hcond : mov.tipo = some "SALIDA" ∧ pyStrLe fd mov.fecha
    · rw [show pasoDemanda fd acc mov =
          agregarSalida acc mov.medicamento_id (mov.cantidad.getD 0) from by
        simp [pasoDemanda, hcond]]
      exact ih _ (agregarSalida_claves_nodup acc _ _ h)
    · rw [show pasoDemanda fd acc mov = acc from by simp [pasoDemanda, hcond]]
      exact ih acc h

theorem foldl_pasoDemanda_buscar (fd : String) (movs : List Movimiento) :
    ∀ (acc : List (String × InfoDemanda)) (k : String),
      buscarDemanda (movs.foldl (pasoDemanda fd) acc) k =
        ⟨(buscarDemanda acc k).cantidad + salidasVentana movs fd k,
         (buscarDemanda acc k).frecuencia + frecuenciaVentana movs fd k⟩ := by
  induction movs with
  | nil =>
    intro acc k
    simp [salidasVentana, frecuenciaVentana]
  | cons mov resto ih =>
    intro acc k
    rw [List.foldl_cons, salidasVentana_cons, frecuenciaVentana_cons]
    by_cases hcond : mov.tipo = some "SALIDA" ∧ pyStrLe fd mov.fecha
    · rw [show pasoDemanda fd acc mov =
          agregarSalida acc mov.medicamento_id (mov.cantidad.getD 0) from by
        simp [pasoDemanda, hcond]]
      rw [ih]
      by_cases hk : mov.medicamento_id = k
      · subst hk
        rw [buscarDemanda_agregar_misma]
        rw [if_pos ⟨hcond.1, hcond.2, rfl⟩, if_pos ⟨hcond.1, hcond.2, rfl⟩]
        refine congrArg₂ InfoDemanda.mk ?_ ?_ <;> dsimp only <;> omega
      · rw [buscarDemanda_agregar_otra _ _ _ _ (fun hh => hk hh.symm)]
        rw [if_neg (fun hh => hk hh.2.2), if_neg (fun hh => hk hh.2.2)]
        refine congrArg₂ InfoDemanda.mk ?_ ?_ <;> dsimp only <;> omega
    · rw [show pasoDemanda fd acc mov = acc from by simp [pasoDemanda, hcond]]
      rw [ih]
      rw [if_neg (fun hh => hcond ⟨hh.1, hh.2.1⟩),
        if_neg (fun hh => hcond ⟨hh.1, hh.2.1⟩)]
      refine congrArg₂ InfoDemanda.mk ?_ ?_ <;> dsimp only <;> omega

theorem find?_clave_of_mem_nodup (l : List (String × InfoDemanda))
    (p : String × InfoDemanda) (h : (l.map Prod.fst).Nodup) (hm : p ∈ l) :
    l.find? (fun q => q.1 = p.1) = some p := by
  induction l with
  | nil => cases hm
  | cons q resto ih =>
    rcases List.mem_cons.mp hm with hq | hresto
    · subst hq
      exact List.find?_cons_of_pos _ (by simp)
    · have hk : ¬ q.1 = p.1 := by
        intro hh
        have h1 : q.1 ∉ resto.map Prod.fst := (List.nodup_cons.mp (by
          simpa using h)).1
        exact h1 (hh ▸ List.mem_map.mpr ⟨p, hresto, rfl⟩)
      rw [List.find?_cons_of_neg _ (by simpa using hk)]
      exact ih (List.nodup_cons.mp (by simpa using h)).2 hresto

theorem buscarDemanda_of_mem_nodup (l : List (String × InfoDemanda))
    (p : String × InfoDemanda) (h : (l.map Prod.fst).Nodup) (hm : p ∈ l) :
    buscarDemanda l p.1 = p.2 := by
  unfold buscarDemanda
  rw [find?_clave_of_mem_nodup l p h hm]

/-- C4 (as the code behaves): for a window of at least one day,
`analisis_demanda` returns the top-10 prefix of the sorted aggregation;
the result is sorted descending by total dispensed and has at most 10
entries; every entry belongs to a stored medication and carries exactly
the sum and count of the SALIDA movements of that medication dated on or
after the window start (INGRESO movements and movements dated before the
window start contribute nothing, but there is no upper date bound), with
average equal to that total divided by the number of days and rounded to
two decimals; and every stored medication with at least one such SALIDA
appears in the aggregation before truncation. -/
theorem analisis_demanda_caracterizacion (meds : List Medicamento)
    (movs : List Movimiento) (fd : String) (dias : ℕ) (hd : 1 ≤ dias) :
    analisis_demanda meds movs fd dias =
      (analisis_demanda_completo meds movs fd dias).take 10 ∧
    (analisis_demanda meds movs fd dias).length ≤ 10 ∧
    List.Sorted ordenDemanda (analisis_demanda meds movs fd dias) ∧
    (∀ e ∈ analisis_demanda meds movs fd dias,
      ∃ med ∈ meds, med.id = e.med_id ∧ e.nombre = med.nombre ∧
        e.total_dispensado = salidasVentana movs fd e.med_id ∧
        e.frecuencia = frecuenciaVentana movs fd e.med_id ∧
        e.promedio_diario =
          pyRound2 ((salidasVentana movs fd e.med_id : ℚ) / (dias : ℚ))) ∧
    (∀ med ∈ meds, 0 < frecuenciaVentana movs fd med.id →
      ∃ e ∈ analisis_demanda_completo meds movs fd dias,
        e.med_id = med.id) := by
  have h_nodup : (((movs.foldl (pasoDemanda fd) []).map Prod.fst)).Nodup :=
    foldl_pasoDemanda_claves_nodup fd movs [] (by simp)
  have h_buscar : ∀ k, buscarDemanda (movs.foldl (pasoDemanda fd) []) k =
      ⟨salidasVentana movs fd k, frecuenciaVentana movs fd k⟩ := by
    intro k
    have hh := foldl_pasoDemanda_buscar fd movs [] k
    simpa [buscarDemanda_nil] using hh
  have h_sorted : List.Sorted ordenDemanda
      (analisis_demanda_completo meds movs fd dias) :=
    List.sorted_insertionSort ordenDemanda _
  refine ⟨rfl, List.length_take_le 10 _,
    List.Pairwise.sublist (List.take_sublist 10 _) h_sorted, ?_, ?_⟩
  · intro e he
    have he2 : e ∈ analisis_demanda_completo meds movs fd dias :=
      (List.take_sublist 10 _).mem he
    have he3 := (List.perm_insertionSort ordenDemanda _).mem_iff.mp he2
    obtain ⟨p, hp, hfp⟩ := List.mem_filterMap.mp he3
    cases hfind : meds.find? (fun med => med.id = p.1) with
    | none =>
      rw [hfind] at hfp
      exact absurd hfp (by simp)
    | some med =>
      rw [hfind] at hfp
      have hmed_mem := List.mem_of_find?_eq_some hfind
      have hps := List.find?_some hfind
      have hmed_id : med.id = p.1 := by simpa using hps
      have hp2 : p.2 = ⟨salidasVentana movs fd p.1,
          frecuenciaVentana movs fd p.1⟩ := by
        rw [← buscarDemanda_of_mem_nodup _ p h_nodup hp, h_buscar]
      have he4 : e = ⟨p.1, med.nombre, p.2.cantidad, p.2.frecuencia,
          pyRound2 ((p.2.cantidad : ℚ) / (dias : ℚ))⟩ :=
        (Option.some.inj hfp).symm
      refine ⟨med, hmed_mem, ?_, ?_, ?_, ?_, ?_⟩
      · rw [he4]
        exact hmed_id
      · rw [he4]
      · rw [he4]
        dsimp only
        rw [hp2]
      · rw [he4]
        dsimp only
        rw [hp2]
      · rw [he4]
        dsimp only
        rw [hp2]
  · intro med hmed hfv
    cases hfind2 : (movs.foldl (pasoDemanda fd) []).find?
        (fun p => p.1 = med.id) with
    | none =>
      exfalso
      have hb := h_buscar med.id
      unfold buscarDemanda at hb
      rw [hfind2] at hb
      have hfv0 : frecuenciaVentana movs fd med.id = 0 :=
        (congrArg InfoDemanda.frecuencia hb).symm
      omega
    | some p =>
      have hp_mem := List.mem_of_find?_eq_some hfind2
      have hps2 := List.find?_some hfind2
      have hp1 : p.1 = med.id := by simpa using hps2
      have hsome : (meds.find? (fun m => m.id = p.1)).isSome :=
        List.find?_isSome.mpr ⟨med, hmed, by simp [hp1]⟩
      obtain ⟨med', hmed'⟩ := Option.isSome_iff_exists.mp hsome
      refine ⟨⟨p.1, med'.nombre, p.2.cantidad, p.2.frecuencia,
          pyRound2 ((p.2.cantidad : ℚ) / (dias : ℚ))⟩, ?_, hp1⟩
      apply (List.perm_insertionSort ordenDemanda _).mem_iff.mpr
      apply List.mem_filterMap.mpr
      exact ⟨p, hp_mem, by rw [hmed']⟩

theorem analisis_demanda_caracterizacion_witness :
    1 ≤ 30 ∧
    (analisis_demanda [⟨"med1", "Paracetamol", 10, 0⟩]
      [⟨"m1", "med1", some "SALIDA", "2026-10-01", some 5, some "M", none, none⟩]
      "2026-09-12" 30).length ≤ 10 :=
  ⟨by decide,
    (analisis_demanda_caracterizacion [⟨"med1", "Paracetamol", 10, 0⟩]
      [⟨"m1", "med1", some "SALIDA", "2026-10-01", some 5, some "M", none, none⟩]
      "2026-09-12" 30 (by decide)).2.1⟩

/-- C4, counterexample to the claim as stated: with the 30-day window
ending 2026-10-12 (so starting 2026-09-12), a single SALIDA of 5 dated
2099-01-01 lies outside the trailing window, yet `analisis_demanda` counts
it (total dispensed 5), while the in-window total written from the words
of the specification is 0: the code has no upper date bound. -/
theorem analisis_demanda_fuera_de_ventana :
    (analisis_demanda [⟨"med1", "Paracetamol", 10, 0⟩]
      [⟨"m1", "med1", some "SALIDA", "2099-01-01", some 5, some "M", none, none⟩]
      "2026-09-12" 30).map (fun e => e.total_dispensado) = [5] ∧
    salidasVentanaSpec
      [⟨"m1", "med1", some "SALIDA", "2099-01-01", some 5, some "M", none, none⟩]
      "2026-09-12" "2026-10-12" "med1" = 0 := by
  constructor
  · decide
  · decide
